import Mathlib

/-!
Verification of the blocking PostgreSQL client facade of rust-postgres
(src/postgres/src/client.rs) and the TLS smoke-test properties
(src/postgres-native-tls/src/test.rs).

The facade delegates every operation to an external asynchronous client
(tokio_postgres, not under src/) by running it to completion on a privately
owned runtime.  The asynchronous collaborator is modelled from the spec as a
deterministic oracle of responses; the facade definitions themselves are
transcribed from src/postgres/src/client.rs.
-/

namespace Pg

/-- Raw bytes, modelled as lists of byte values. -/
abbrev Bytes := List Nat

/-- SQL values bound as parameters or returned in rows; the facade treats them
as opaque, so an integer carrier suffices. -/
abbrev Value := Int

/-- A result row.  The facade reuses the async collaborator's row
representation unchanged. -/
abbrev Row := List Value

/-- Errors of the async collaborator; the facade reuses them unmodified. -/
structure PgError where
  code : Nat
deriving DecidableEq, Repr

/-- Error returned when a query does not produce the expected number of rows. -/
def errRowCount : PgError := ⟨1⟩

/-- Error for a failed TLS handshake during connection establishment. -/
def errTlsHandshake : PgError := ⟨2⟩

/-- Error for a COPY that was aborted before its terminator. -/
def errCopyAborted : PgError := ⟨3⟩

/-- Outcome of an operation that can also abort (panic) on caller misuse:
Rust's panic is a third outcome distinct from every typed error value. -/
inductive PResult (α : Type) where
  | ok : α → PResult α
  | err : PgError → PResult α
  | panicked : PResult α
deriving DecidableEq

/-- A parameter or column type (wire OID). -/
structure PgType where
  oid : Nat
deriving DecidableEq, Repr

/-- The INT4 type used by the smoke tests. -/
def int4 : PgType := ⟨23⟩

/-- A server-side prepared statement: the query text and the parameter types
it expects (their number is the expected parameter count). -/
structure Statement where
  query : String
  paramTypes : List PgType
deriving DecidableEq, Repr

/-- One message of a simple-query response: a command completion or a data
row of textual columns. -/
inductive SimpleQueryMessage where
  | commandComplete : Nat → SimpleQueryMessage
  | row : List String → SimpleQueryMessage
deriving DecidableEq, Repr

/-- A future: a value that resolves after some number of cooperative
suspensions.  The suspensions are invisible to a blocking caller. -/
structure Future (α : Type) where
  steps : Nat
  result : α

/-- The tokio runtime privately owned by each Client. -/
structure Runtime where
  id : Nat
deriving DecidableEq, Repr

/-- Runtime.block_on drives a future to completion, returning its resolved
value regardless of how many times it suspends. -/
def Runtime.blockOn (_rt : Runtime) (fut : Future α) : α :=
  fut.result

/-- The borrow-extension wrapper from src/postgres/src/client.rs:
pub(crate) struct Rt of a mutable borrow of the runtime.  The exclusive
borrow is modelled by holding the runtime value. -/
structure Rt where
  ref : Runtime
deriving DecidableEq, Repr

/-- The Deref impl of Rt: yields exactly the borrowed runtime (self.0). -/
def Rt.deref (r : Rt) : Runtime :=
  r.ref

/-- The DerefMut impl of Rt as a lens update: mutating through the wrapper
mutates exactly the borrowed runtime. -/
def Rt.derefMut (r : Rt) (f : Runtime → Runtime) : Rt :=
  ⟨f r.ref⟩

/-- The Drop impl of Rt is an explicit no-op (fn drop performs no action). -/
def Rt.dropRun (_r : Rt) : Unit :=
  ()

/-- Dropping the wrapper releases the borrowed runtime; the runtime itself is
returned to its owner unchanged. -/
def Rt.dropRelease (r : Rt) : Runtime :=
  r.ref

/-- Modelled from the spec: the asynchronous collaborator (tokio_postgres,
not under src/) is consumed through a stable API whose responses depend only
on the request; they are modelled as a deterministic oracle keyed by
statement, parameters and query text. -/
structure ServerOracle where
  inferTypes : String → List PgType
  executeResp : Statement → List Value → Except PgError Nat
  queryResp : Statement → List Value → Except PgError (List Row)
  simpleResp : String → Except PgError (List SimpleQueryMessage)
  batchResp : String → Except PgError Unit
  copyInAccept : Statement → Except PgError Unit
  beginResp : Except PgError Unit

/-- Modelled from the spec: the async client handle owned by the facade,
carrying the server oracle, the backend identifiers used for cancellation,
and the connection liveness flag. -/
structure AsyncClient where
  server : ServerOracle
  processId : Nat
  secretKey : Nat
  closed : Bool

/-- Lift a typed result of the collaborator into the panic-aware outcome. -/
def ofExcept : Except PgError α → PResult α
  | .ok a => .ok a
  | .error e => .err e

/-- Modelled from the spec: async execute serializes the parameters, aborting
(panicking) when their number differs from the statement's expected count,
and otherwise returns the server's affected-row count or error. -/
def AsyncClient.execute (c : AsyncClient) (st : Statement) (params : List Value) :
    Future (PResult Nat) :=
  ⟨1, if params.length = st.paramTypes.length then
        ofExcept (c.server.executeResp st params)
      else
        .panicked⟩

/-- Modelled from the spec: async query collects the resulting rows, with the
same parameter-count abort as execute. -/
def AsyncClient.query (c : AsyncClient) (st : Statement) (params : List Value) :
    Future (PResult (List Row)) :=
  ⟨1, if params.length = st.paramTypes.length then
        ofExcept (c.server.queryResp st params)
      else
        .panicked⟩

/-- Modelled from the spec: async query_one requires exactly one resulting
row, returning a typed error otherwise. -/
def AsyncClient.query_one (c : AsyncClient) (st : Statement) (params : List Value) :
    Future (PResult Row) :=
  ⟨1, if params.length = st.paramTypes.length then
        match c.server.queryResp st params with
        | .error e => .err e
        | .ok [r] => .ok r
        | .ok _ => .err errRowCount
      else
        .panicked⟩

/-- Modelled from the spec: async query_opt requires at most one resulting
row, returning a typed error otherwise. -/
def AsyncClient.query_opt (c : AsyncClient) (st : Statement) (params : List Value) :
    Future (PResult (Option Row)) :=
  ⟨1, if params.length = st.paramTypes.length then
        match c.server.queryResp st params with
        | .error e => .err e
        | .ok [] => .ok none
        | .ok [r] => .ok (some r)
        | .ok _ => .err errRowCount
      else
        .panicked⟩

/-- The asynchronous stream of result rows, not yet collected. -/
structure RowStream where
  pending : List Row
deriving DecidableEq

/-- Modelled from the spec: async query_raw returns the row stream itself
rather than collecting it, with the same parameter-count abort. -/
def AsyncClient.query_raw (c : AsyncClient) (st : Statement) (params : List Value) :
    Future (PResult RowStream) :=
  ⟨1, if params.length = st.paramTypes.length then
        match c.server.queryResp st params with
        | .error e => .err e
        | .ok rows => .ok ⟨rows⟩
      else
        .panicked⟩

/-- Modelled from the spec: async prepare registers the statement with every
parameter type inferred by the server. -/
def AsyncClient.prepare (c : AsyncClient) (q : String) :
    Future (Except PgError Statement) :=
  ⟨1, .ok ⟨q, c.server.inferTypes q⟩⟩

/-- Modelled from the spec: async prepare_typed registers the statement with
the explicitly supplied types; types omitted from the list are inferred. -/
def AsyncClient.prepare_typed (c : AsyncClient) (q : String) (types : List PgType) :
    Future (Except PgError Statement) :=
  ⟨1, .ok ⟨q, types ++ (c.server.inferTypes q).drop types.length⟩⟩

/-- Modelled from the spec: async simple_query runs a multi-statement text
query, preserving the per-statement framing of the response. -/
def AsyncClient.simple_query (c : AsyncClient) (q : String) :
    Future (PResult (List SimpleQueryMessage)) :=
  ⟨1, ofExcept (c.server.simpleResp q)⟩

/-- Modelled from the spec: async batch_execute runs a multi-statement text
query discarding row data. -/
def AsyncClient.batch_execute (c : AsyncClient) (q : String) :
    Future (PResult Unit) :=
  ⟨1, ofExcept (c.server.batchResp q)⟩

/-- One frame of the COPY-in sub-protocol: data, the success terminator, or
the abort frame. -/
inductive CopyFrame where
  | data : Bytes → CopyFrame
  | done : CopyFrame
  | fail : CopyFrame
deriving DecidableEq, Repr

/-- The async COPY-in sink: the frames sent to the server so far. -/
structure CopySink where
  frames : List CopyFrame
deriving DecidableEq, Repr

/-- A freshly opened COPY-in sink has sent no frames. -/
def CopySink.new : CopySink := ⟨[]⟩

/-- Modelled from the spec: async copy_in opens a COPY-in sink for the
statement (COPY statements take no parameters). -/
def AsyncClient.copy_in (c : AsyncClient) (st : Statement) :
    Future (Except PgError CopySink) :=
  ⟨1, match c.server.copyInAccept st with
      | .ok _ => .ok CopySink.new
      | .error e => .error e⟩

/-- Modelled from the spec: async transaction issues BEGIN on the
connection. -/
def AsyncClient.transaction (c : AsyncClient) : Future (Except PgError Unit) :=
  ⟨1, c.server.beginResp⟩

/-- Modelled from the spec: the collaborator's cancellation token, carrying
only the backend process id and secret key needed to request cancellation. -/
structure TokioCancelToken where
  processId : Nat
  secretKey : Nat
deriving DecidableEq, Repr

/-- Modelled from the spec: the async client's cancel_token exposes the
backend identifiers. -/
def AsyncClient.cancel_token (c : AsyncClient) : TokioCancelToken :=
  ⟨c.processId, c.secretKey⟩

/-- Modelled from the spec: the async client's liveness probe. -/
def AsyncClient.is_closed (c : AsyncClient) : Bool :=
  c.closed

/-- The synchronous cancellation token of the facade, wrapping the
collaborator's token (src/postgres CancelToken::new). -/
structure CancelToken where
  inner : TokioCancelToken
deriving DecidableEq, Repr

/-- CancelToken::new wraps the collaborator's token unchanged. -/
def CancelToken.new (t : TokioCancelToken) : CancelToken :=
  ⟨t⟩

/-- A synchronous PostgreSQL client (src/postgres/src/client.rs): owns its
runtime and the async client handle, one physical connection per instance. -/
structure Client where
  runtime : Runtime
  client : AsyncClient

/-- Client::rt from src: wraps a mutable borrow of the client's runtime. -/
def Client.rt (c : Client) : Rt :=
  ⟨c.runtime⟩

/-- Client::execute from src: runtime.block_on(client.execute(query, params)). -/
def Client.execute (c : Client) (query : Statement) (params : List Value) :
    PResult Nat :=
  c.runtime.blockOn (c.client.execute query params)

/-- Client::query from src: runtime.block_on(client.query(query, params)). -/
def Client.query (c : Client) (query : Statement) (params : List Value) :
    PResult (List Row) :=
  c.runtime.blockOn (c.client.query query params)

/-- Client::query_one from src: runtime.block_on(client.query_one(..)). -/
def Client.query_one (c : Client) (query : Statement) (params : List Value) :
    PResult Row :=
  c.runtime.blockOn (c.client.query_one query params)

/-- Client::query_opt from src: runtime.block_on(client.query_opt(..)). -/
def Client.query_opt (c : Client) (query : Statement) (params : List Value) :
    PResult (Option Row) :=
  c.runtime.blockOn (c.client.query_opt query params)

/-- Client::prepare from src: runtime.block_on(client.prepare(query)). -/
def Client.prepare (c : Client) (query : String) : Except PgError Statement :=
  c.runtime.blockOn (c.client.prepare query)

/-- Client::prepare_typed from src:
runtime.block_on(client.prepare_typed(query, types)). -/
def Client.prepare_typed (c : Client) (query : String) (types : List PgType) :
    Except PgError Statement :=
  c.runtime.blockOn (c.client.prepare_typed query types)

/-- Client::simple_query from src: runtime.block_on(client.simple_query(..)). -/
def Client.simple_query (c : Client) (query : String) :
    PResult (List SimpleQueryMessage) :=
  c.runtime.blockOn (c.client.simple_query query)

/-- Client::batch_execute from src: runtime.block_on(client.batch_execute(..)). -/
def Client.batch_execute (c : Client) (query : String) : PResult Unit :=
  c.runtime.blockOn (c.client.batch_execute query)

/-- Client::cancel_token from src takes a shared receiver and builds the
facade token from the async client's token; in state-passing form the client
is returned unchanged. -/
def Client.cancel_token (c : Client) : CancelToken × Client :=
  (CancelToken.new (AsyncClient.cancel_token c.client), c)

/-- Client::is_closed from src takes a shared receiver and reads the async
client's liveness flag; in state-passing form the client is returned
unchanged. -/
def Client.is_closed (c : Client) : Bool × Client :=
  (AsyncClient.is_closed c.client, c)

/-- Modelled from the spec: the blocking row iterator (RowIter; its source
file is not under src/) holds the borrow-extension wrapper over the client's
runtime and the async row stream. -/
structure RowIter where
  rt : Rt
  stream : RowStream
deriving DecidableEq

/-- RowIter::new stores the wrapper and the stream. -/
def RowIter.new (rt : Rt) (s : RowStream) : RowIter :=
  ⟨rt, s⟩

/-- One asynchronous step of the row stream: yield the next pending row, if
any, together with the rest of the stream. -/
def RowStream.next (s : RowStream) : Future (Option Row × RowStream) :=
  ⟨1, match s.pending with
      | [] => (none, s)
      | r :: rest => (some r, ⟨rest⟩)⟩

/-- Modelled from the spec: each advance of the iterator blocks, through the
wrapper, on exactly one step of the stream. -/
def RowIter.next (it : RowIter) : Option Row × RowIter :=
  let step := (Rt.deref it.rt).blockOn it.stream.next
  (step.1, ⟨it.rt, step.2⟩)

/-- Advance the iterator k times, collecting the rows produced. -/
def RowIter.nextN : Nat → RowIter → List Row × RowIter
  | 0, it => ([], it)
  | Nat.succ k, it =>
    match it.next with
    | (none, it2) => ([], it2)
    | (some r, it2) =>
      let t := RowIter.nextN k it2
      (r :: t.1, t.2)

/-- Client::query_raw from src: block on the async query_raw for the stream,
propagate its error, and otherwise wrap the stream with the borrow-extension
wrapper: RowIter::new(self.rt(), stream). -/
def Client.query_raw (c : Client) (query : Statement) (params : List Value) :
    PResult RowIter :=
  match c.runtime.blockOn (c.client.query_raw query params) with
  | .ok stream => .ok (RowIter.new c.rt stream)
  | .err e => .err e
  | .panicked => .panicked

/-- Modelled from the spec: the blocking COPY-in writer (CopyInWriter; its
source file is not under src/) holds the borrow-extension wrapper, the sink
of frames sent so far, and whether finish was called. -/
structure CopyInWriter where
  rt : Rt
  sink : CopySink
  finished : Bool
deriving DecidableEq, Repr

/-- CopyInWriter::new wraps a fresh sink, not yet finished. -/
def CopyInWriter.new (rt : Rt) (s : CopySink) : CopyInWriter :=
  ⟨rt, s, false⟩

/-- Writing a chunk sends one data frame to the sink verbatim. -/
def CopyInWriter.writeChunk (w : CopyInWriter) (b : Bytes) : CopyInWriter :=
  ⟨w.rt, ⟨w.sink.frames ++ [.data b]⟩, w.finished⟩

/-- Write a sequence of chunks in order. -/
def CopyInWriter.writeAll (w : CopyInWriter) (chunks : List Bytes) : CopyInWriter :=
  chunks.foldl CopyInWriter.writeChunk w

/-- finish sends the success terminator and marks the writer finished. -/
def CopyInWriter.finish (w : CopyInWriter) : CopyInWriter :=
  ⟨w.rt, ⟨w.sink.frames ++ [.done]⟩, true⟩

/-- Modelled from the spec: dropping an unfinished writer sends the abort
frame (best effort, no error surfaced); dropping a finished one does
nothing. -/
def CopyInWriter.dropRun (w : CopyInWriter) : CopyInWriter :=
  if w.finished then w else ⟨w.rt, ⟨w.sink.frames ++ [.fail]⟩, true⟩

/-- Client::copy_in from src: block on the async copy_in for the sink,
propagate its error, and otherwise wrap it:
CopyInWriter::new(self.rt(), sink). -/
def Client.copy_in (c : Client) (query : Statement) : PResult CopyInWriter :=
  match c.runtime.blockOn (c.client.copy_in query) with
  | .ok sink => .ok (CopyInWriter.new c.rt sink)
  | .error e => .err e

/-- Rows carried by one text-format chunk: rows are newline-terminated. -/
def rowsOfChunk (b : Bytes) : Nat :=
  (b.filter (fun x => x = 10)).length

/-- Rows carried by the data frames of a frame sequence. -/
def framesRows : List CopyFrame → Nat
  | [] => 0
  | .data b :: rest => rowsOfChunk b + framesRows rest
  | .done :: rest => framesRows rest
  | .fail :: rest => framesRows rest

/-- Modelled from the spec: the server commits a COPY only when the frame
sequence ends with the explicit success terminator. -/
def copyCommitted (frames : List CopyFrame) : Bool :=
  frames.getLast? == some CopyFrame.done

/-- Modelled from the spec: the row count reported by a completed COPY, or
an abort error when the terminator never arrived. -/
def copyRowCount (frames : List CopyFrame) : Except PgError Nat :=
  if copyCommitted frames then .ok (framesRows frames) else .error errCopyAborted

/-- Modelled from the spec: the target table's row count after the server
processes the frame sequence - unchanged unless the COPY committed. -/
def copyApply (table : Nat) (frames : List CopyFrame) : Nat :=
  if copyCommitted frames then table + framesRows frames else table

/-- A terminal command a transaction can send on its connection. -/
inductive TxCommand where
  | commit : TxCommand
  | rollback : TxCommand
deriving DecidableEq, Repr

/-- Modelled from the spec: the scoped transaction handle (Transaction; its
source file is not under src/) tracks whether a terminal command was issued
and which terminal commands were sent on the connection. -/
structure Transaction where
  done : Bool
  sent : List TxCommand
deriving DecidableEq, Repr

/-- A freshly begun transaction: nothing terminal sent yet. -/
def Transaction.new : Transaction :=
  ⟨false, []⟩

/-- commit consumes the handle, sending COMMIT and marking it resolved. -/
def Transaction.commit (t : Transaction) : Transaction :=
  ⟨true, t.sent ++ [.commit]⟩

/-- rollback consumes the handle, sending ROLLBACK and marking it resolved. -/
def Transaction.rollback (t : Transaction) : Transaction :=
  ⟨true, t.sent ++ [.rollback]⟩

/-- Modelled from the spec: dropping an unresolved handle issues a
best-effort ROLLBACK (errors swallowed); dropping a resolved one does
nothing. -/
def Transaction.dropRun (t : Transaction) : Transaction :=
  if t.done then t else ⟨true, t.sent ++ [.rollback]⟩

/-- How a caller finishes with a transaction handle before it goes out of
scope: explicit commit, explicit rollback, or abandonment. -/
inductive TxFinish where
  | commitCall : TxFinish
  | rollbackCall : TxFinish
  | abandon : TxFinish
deriving DecidableEq, Repr

/-- The full lifecycle of a fresh handle under a chosen finish: the explicit
terminal call (if any) followed by the drop at scope exit. -/
def Transaction.lifecycle (f : TxFinish) : Transaction :=
  Transaction.dropRun (match f with
    | .commitCall => Transaction.new.commit
    | .rollbackCall => Transaction.new.rollback
    | .abandon => Transaction.new)

/-- The terminal command a finish choice must produce: COMMIT only for an
explicit commit, ROLLBACK otherwise. -/
def TxFinish.terminal : TxFinish → TxCommand
  | .commitCall => .commit
  | .rollbackCall => .rollback
  | .abandon => .rollback

/-- Client::transaction from src: block on the async transaction (BEGIN),
propagate its error, and otherwise return the fresh scoped handle. -/
def Client.transaction (c : Client) : PResult Transaction :=
  match c.runtime.blockOn c.client.transaction with
  | .ok _ => .ok Transaction.new
  | .error e => .err e

/-- Modelled from the spec: the transaction builder (TransactionBuilder; its
source file is not under src/) holds the runtime borrow and the async
builder; isolation options do not affect the begin/commit/rollback
discipline and are elided. -/
structure TransactionBuilder where
  runtime : Runtime
  client : AsyncClient

/-- Client::build_transaction from src:
TransactionBuilder::new(&mut self.runtime, self.client.build_transaction()). -/
def Client.build_transaction (c : Client) : TransactionBuilder :=
  ⟨c.runtime, c.client⟩

/-- Modelled from the spec: starting the built transaction blocks on BEGIN
and returns the fresh scoped handle. -/
def TransactionBuilder.start (b : TransactionBuilder) : PResult Transaction :=
  match b.runtime.blockOn b.client.transaction with
  | .ok _ => .ok Transaction.new
  | .error e => .err e

/-- The facade's public operation surface, one constructor per method of
src/postgres/src/client.rs. -/
inductive FacadeOp where
  | execute : FacadeOp
  | query : FacadeOp
  | query_one : FacadeOp
  | query_opt : FacadeOp
  | query_raw : FacadeOp
  | prepare : FacadeOp
  | prepare_typed : FacadeOp
  | copy_in : FacadeOp
  | copy_out : FacadeOp
  | simple_query : FacadeOp
  | batch_execute : FacadeOp
  | transaction : FacadeOp
  | build_transaction : FacadeOp
  | cancel_token : FacadeOp
  | is_closed : FacadeOp
deriving DecidableEq, Repr

/-- Receiver mode of each facade method, transcribed from the signatures in
src/postgres/src/client.rs: every method takes an exclusive (mutable)
receiver except cancel_token and is_closed, which take a shared one. -/
def FacadeOp.takesMutSelf : FacadeOp → Bool
  | .cancel_token => false
  | .is_closed => false
  | _ => true

/-- Whether the method body runs an async operation to completion via
runtime.block_on, transcribed from the bodies in src/postgres/src/client.rs
(cancel_token and is_closed only read state; build_transaction only
constructs a builder). -/
def FacadeOp.usesBlockOn : FacadeOp → Bool
  | .cancel_token => false
  | .is_closed => false
  | .build_transaction => false
  | _ => true

/-- The sslmode values exercised by the TLS smoke tests. -/
inductive SslMode where
  | disable : SslMode
  | prefer : SslMode
  | require : SslMode
deriving DecidableEq, Repr

/-- The TLS-relevant part of a connection configuration: whether the
server's certificate is in the configured trust roots and whether the
target hostname verifies against it. -/
structure TlsParams where
  trustedCert : Bool
  hostnameOk : Bool
deriving DecidableEq, Repr

/-- The TLS-relevant capability of the target server. -/
structure ServerInfo where
  tlsCapable : Bool
deriving DecidableEq, Repr

/-- Outcome of connection establishment: connected over TLS, connected in
plaintext, or failed outright. -/
inductive ConnResult where
  | tls : ConnResult
  | plaintext : ConnResult
  | failed : PgError → ConnResult
deriving DecidableEq, Repr

/-- Modelled from the spec: the adapter's handshake succeeds exactly when
certificate validation and hostname verification both pass. -/
def handshakeOk (p : TlsParams) : Bool :=
  p.trustedCert && p.hostnameOk

/-- Modelled from the spec: connection establishment under an sslmode.
With require, TLS must be negotiated and the handshake must succeed; with
prefer, TLS is negotiated when the server is capable (falling back to
plaintext otherwise); on handshake failure the attempt fails outright. -/
def establish (mode : SslMode) (p : TlsParams) (srv : ServerInfo) : ConnResult :=
  match mode with
  | .disable => .plaintext
  | .require =>
    if srv.tlsCapable && handshakeOk p then .tls else .failed errTlsHandshake
  | .prefer =>
    if srv.tlsCapable then
      (if handshakeOk p then .tls else .failed errTlsHandshake)
    else
      .plaintext

/-- Modelled from the spec: a server oracle under which the statement
SELECT dollar-one cast to INT4 takes one INT4 parameter and echoes it back
as a single one-column row. -/
def selectParamOracle : ServerOracle where
  inferTypes := fun q => if q = "SELECT $1::INT4" then [int4] else []
  executeResp := fun _ _ => .ok 0
  queryResp := fun st params =>
    if st.query = "SELECT $1::INT4" then .ok [params] else .ok []
  simpleResp := fun _ => .ok []
  batchResp := fun _ => .ok ()
  copyInAccept := fun _ => .ok ()
  beginResp := .ok ()

/-- The async client reached by the smoke tests after a successful
connection. -/
def tlsTestClient : AsyncClient :=
  ⟨selectParamOracle, 7, 42, false⟩

/-- The round trip of src/postgres-native-tls/src/test.rs smoke_test:
prepare the SELECT statement, then run it bound to the value 1 and collect
the rows. -/
def smokeRoundTrip (c : AsyncClient) : PResult (List Row) :=
  match (c.prepare "SELECT $1::INT4").result with
  | .error e => .err e
  | .ok stmt => (c.query stmt [1]).result

/-- A sample oracle used to instantiate the theorems at concrete inputs:
it echoes the query parameters back as a single row and accepts every
request. -/
def sampleOracle : ServerOracle where
  inferTypes := fun _ => [int4]
  executeResp := fun _ _ => .ok 1
  queryResp := fun _ params => .ok [params]
  simpleResp := fun _ => .ok []
  batchResp := fun _ => .ok ()
  copyInAccept := fun _ => .ok ()
  beginResp := .ok ()

/-- A concrete facade client over the sample oracle. -/
def sampleClient : Client :=
  ⟨⟨0⟩, ⟨sampleOracle, 7, 42, false⟩⟩

/-- A concrete statement expecting exactly one parameter. -/
def sampleStmt : Statement :=
  ⟨"SELECT $1::INT4", [int4]⟩

/-! ### Helper lemmas -/

/-- The last element of a list extended by one element. -/
theorem getLast?_append_one {α : Type} (l : List α) (a : α) :
    (l ++ [a]).getLast? = some a := by
  rw [List.getLast?_append_cons]
  rfl

/-- Advancing the iterator k times yields exactly the first k pending rows,
leaves the rest pending, and keeps the same runtime wrapper. -/
theorem nextN_spec (k : Nat) (it : RowIter) :
    (RowIter.nextN k it).1 = it.stream.pending.take k ∧
    (RowIter.nextN k it).2.stream.pending = it.stream.pending.drop k ∧
    (RowIter.nextN k it).2.rt = it.rt := by
  induction k generalizing it with
  | zero => simp [RowIter.nextN]
  | succ n ih =>
    obtain ⟨w, ⟨pending⟩⟩ := it
    cases pending with
    | nil =>
      simp [RowIter.nextN, RowIter.next, RowStream.next, Runtime.blockOn]
    | cons r rest =>
      have h := ih ⟨w, ⟨rest⟩⟩
      simp [RowIter.nextN, RowIter.next, RowStream.next, Runtime.blockOn] at h ⊢
      exact ⟨h.1, h.2.1, h.2.2⟩

/-- Writing a sequence of chunks appends their data frames in order and
changes nothing else about the writer. -/
theorem writeAll_spec (chunks : List Bytes) (w : Rt) (fs : List CopyFrame) (fin : Bool) :
    CopyInWriter.writeAll ⟨w, ⟨fs⟩, fin⟩ chunks =
      ⟨w, ⟨fs ++ chunks.map CopyFrame.data⟩, fin⟩ := by
  induction chunks generalizing fs with
  | nil => simp [CopyInWriter.writeAll]
  | cons b rest ih =>
    have h := ih (fs ++ [CopyFrame.data b])
    simp [CopyInWriter.writeAll, CopyInWriter.writeChunk] at h ⊢
    simp [h]

/-- The rows carried by a pure data-frame sequence. -/
theorem framesRows_map_data (chunks : List Bytes) :
    framesRows (chunks.map CopyFrame.data) = (chunks.map rowsOfChunk).sum := by
  induction chunks with
  | nil => simp [framesRows]
  | cons b rest ih => simp [framesRows, ih]

/-- The success terminator adds no rows. -/
theorem framesRows_append_done (l : List CopyFrame) :
    framesRows (l ++ [CopyFrame.done]) = framesRows l := by
  induction l with
  | nil => simp [framesRows]
  | cons f rest ih => cases f <;> simp [framesRows, ih]

/-! ### Claims -/

/-- C1: each listed facade operation (execute, query, query_one, query_opt,
prepare, prepare_typed, simple_query, batch_execute) runs the corresponding
asynchronous operation to completion on the client's own runtime and returns
exactly its resolved result - value, error, or abort - unchanged, with no
additional wrapping. -/
theorem c1_facade_returns_async_result_unchanged (c : Client) (st : Statement)
    (params : List Value) (q : String) (types : List PgType) :
    Client.execute c st params = (AsyncClient.execute c.client st params).result ∧
    Client.query c st params = (AsyncClient.query c.client st params).result ∧
    Client.query_one c st params = (AsyncClient.query_one c.client st params).result ∧
    Client.query_opt c st params = (AsyncClient.query_opt c.client st params).result ∧
    Client.prepare c q = (AsyncClient.prepare c.client q).result ∧
    Client.prepare_typed c q types = (AsyncClient.prepare_typed c.client q types).result ∧
    Client.simple_query c q = (AsyncClient.simple_query c.client q).result ∧
    Client.batch_execute c q = (AsyncClient.batch_execute c.client q).result :=
  ⟨rfl, rfl, rfl, rfl, rfl, rfl, rfl, rfl⟩

/-- C4: when the number of supplied parameters differs from the number the
statement expects, every parameterized facade operation aborts (panics)
instead of returning a typed error value. -/
theorem c4_param_mismatch_aborts (c : Client) (st : Statement) (params : List Value)
    (h : params.length ≠ st.paramTypes.length) :
    Client.execute c st params = PResult.panicked ∧
    Client.query c st params = PResult.panicked ∧
    Client.query_one c st params = PResult.panicked ∧
    Client.query_opt c st params = PResult.panicked ∧
    Client.query_raw c st params = PResult.panicked := by
  refine ⟨?_, ?_, ?_, ?_, ?_⟩ <;>
    simp [Client.execute, Client.query, Client.query_one, Client.query_opt,
      Client.query_raw, AsyncClient.execute, AsyncClient.query,
      AsyncClient.query_one, AsyncClient.query_opt, AsyncClient.query_raw,
      Runtime.blockOn, h]

/-- C4 witness: zero parameters against a one-parameter statement abort on
every parameterized operation. -/
theorem c4_param_mismatch_aborts_witness :
    Client.execute sampleClient sampleStmt [] = PResult.panicked ∧
    Client.query sampleClient sampleStmt [] = PResult.panicked ∧
    Client.query_one sampleClient sampleStmt [] = PResult.panicked ∧
    Client.query_opt sampleClient sampleStmt [] = PResult.panicked ∧
    Client.query_raw sampleClient sampleStmt [] = PResult.panicked :=
  c4_param_mismatch_aborts sampleClient sampleStmt [] (by decide)

/-- C9: prepare_typed with an empty type list produces the same
statement-creation result as prepare on the same query string. -/
theorem c9_prepare_typed_empty_eq_prepare (c : Client) (q : String) :
    Client.prepare_typed c q [] = Client.prepare c q := by
  simp [Client.prepare_typed, Client.prepare, AsyncClient.prepare_typed,
    AsyncClient.prepare, Runtime.blockOn]

/-- C5 counterexample: cancel_token (and likewise is_closed) takes a shared
receiver in src/postgres/src/client.rs, so it is false that every facade
call requires exclusive access to the Client. -/
theorem c5_counterexample :
    FacadeOp.takesMutSelf FacadeOp.cancel_token = false ∧
    FacadeOp.takesMutSelf FacadeOp.is_closed = false ∧
    ¬ ∀ op : FacadeOp, FacadeOp.takesMutSelf op = true := by
  refine ⟨rfl, rfl, fun h => ?_⟩
  have hc := h FacadeOp.cancel_token
  simp [FacadeOp.takesMutSelf] at hc

/-- C5 (amended): every facade operation except cancel_token and is_closed
requires exclusive (mutable) access to the Client, so no two of them can run
concurrently against one instance; and exactly the operations other than
cancel_token, is_closed and build_transaction block the calling thread on
the runtime until the asynchronous operation completes. -/
theorem c5_receiver_modes (op : FacadeOp) :
    (FacadeOp.takesMutSelf op = false ↔
      (op = FacadeOp.cancel_token ∨ op = FacadeOp.is_closed)) ∧
    (FacadeOp.usesBlockOn op = true ↔
      (op ≠ FacadeOp.cancel_token ∧ op ≠ FacadeOp.is_closed ∧
        op ≠ FacadeOp.build_transaction)) := by
  cases op <;> simp [FacadeOp.takesMutSelf, FacadeOp.usesBlockOn]

/-- C10: cancel_token and is_closed take only shared access to the Client
and leave its whole state (runtime and async client handle) unchanged,
while returning the async client's token and liveness flag respectively. -/
theorem c10_shared_access_pure :
    FacadeOp.takesMutSelf FacadeOp.cancel_token = false ∧
    FacadeOp.takesMutSelf FacadeOp.is_closed = false ∧
    (∀ c : Client, (Client.cancel_token c).2 = c ∧ (Client.is_closed c).2 = c) ∧
    (∀ c : Client,
      (Client.cancel_token c).1 = CancelToken.new (AsyncClient.cancel_token c.client) ∧
      (Client.is_closed c).1 = AsyncClient.is_closed c.client) :=
  ⟨rfl, rfl, fun _ => ⟨rfl, rfl⟩, fun _ => ⟨rfl, rfl⟩⟩

/-- C7: the borrow-extension wrapper Rt is behaviorally identical to direct
access to the runtime: construction from the client's runtime dereferences
to exactly that runtime, it is in bijection with the runtime it borrows
(no further state), mutation through it is mutation of the runtime, its
drop performs no action and releases the runtime unchanged, and blocking
through it is blocking on the runtime directly. -/
theorem c7_rt_transparent :
    (∀ c : Client, Rt.deref (Client.rt c) = c.runtime) ∧
    (∀ r : Runtime, Rt.deref ⟨r⟩ = r) ∧
    (∀ w : Rt, (⟨Rt.deref w⟩ : Rt) = w) ∧
    (∀ w : Rt, Rt.dropRun w = () ∧ Rt.dropRelease w = w.ref) ∧
    (∀ (w : Rt) (f : Runtime → Runtime), Rt.derefMut w f = ⟨f (Rt.deref w)⟩) ∧
    (∀ (w : Rt) (fut : Future (PResult Nat)),
      Runtime.blockOn (Rt.deref w) fut = Runtime.blockOn w.ref fut) :=
  ⟨fun _ => rfl, fun _ => rfl, fun _ => rfl, fun _ => ⟨rfl, rfl⟩,
   fun _ _ => rfl, fun _ _ => rfl⟩

/-- C6: query_raw returns a streaming iterator rather than a collected
sequence: on success the whole row stream is still pending inside the
returned handle, the handle holds the same client's runtime through the
borrow-extension wrapper for subsequent advances, and k blocking advances
produce exactly the first k rows, leaving the rest pending. -/
theorem c6_query_raw_streaming (c : Client) (st : Statement) (params : List Value)
    (s : RowStream)
    (h : (AsyncClient.query_raw c.client st params).result = PResult.ok s) :
    Client.query_raw c st params = PResult.ok (RowIter.new (Client.rt c) s) ∧
    (RowIter.new (Client.rt c) s).stream = s ∧
    Rt.deref (RowIter.new (Client.rt c) s).rt = c.runtime ∧
    ∀ k : Nat,
      (RowIter.nextN k (RowIter.new (Client.rt c) s)).1 = s.pending.take k ∧
      (RowIter.nextN k (RowIter.new (Client.rt c) s)).2.stream.pending =
        s.pending.drop k ∧
      (RowIter.nextN k (RowIter.new (Client.rt c) s)).2.rt = Client.rt c := by
  refine ⟨?_, rfl, rfl, ?_⟩
  · simp [Client.query_raw, Runtime.blockOn, h]
  · intro k
    have hs := nextN_spec k (RowIter.new (Client.rt c) s)
    exact ⟨hs.1, hs.2.1, hs.2.2⟩

/-- C6 witness: a one-row result stream is returned unconsumed and a single
advance produces that row. -/
theorem c6_query_raw_streaming_witness :
    (AsyncClient.query_raw sampleClient.client sampleStmt [5]).result =
      PResult.ok ⟨[[5]]⟩ ∧
    (Client.query_raw sampleClient sampleStmt [5] =
      PResult.ok (RowIter.new (Client.rt sampleClient) ⟨[[5]]⟩) ∧
    (RowIter.new (Client.rt sampleClient) ⟨[[5]]⟩).stream = ⟨[[5]]⟩ ∧
    Rt.deref (RowIter.new (Client.rt sampleClient) ⟨[[5]]⟩).rt =
      sampleClient.runtime ∧
    ∀ k : Nat,
      (RowIter.nextN k (RowIter.new (Client.rt sampleClient) ⟨[[5]]⟩)).1 =
        (RowStream.mk [[5]]).pending.take k ∧
      (RowIter.nextN k (RowIter.new (Client.rt sampleClient) ⟨[[5]]⟩)).2.stream.pending =
        (RowStream.mk [[5]]).pending.drop k ∧
      (RowIter.nextN k (RowIter.new (Client.rt sampleClient) ⟨[[5]]⟩)).2.rt =
        Client.rt sampleClient) :=
  ⟨rfl, c6_query_raw_streaming sampleClient sampleStmt [5] ⟨[[5]]⟩ rfl⟩

/-- C2: a transaction obtained from Client::transaction or from
Client::build_transaction starts unresolved, and under any finish choice its
connection sees exactly one terminal command: COMMIT only when commit was
explicitly called, and ROLLBACK by default when the handle is abandoned -
never both, and never a silent commit. -/
theorem c2_transaction_single_terminal (c : Client) (t u : Transaction) (f : TxFinish)
    (h1 : Client.transaction c = PResult.ok t)
    (h2 : TransactionBuilder.start (Client.build_transaction c) = PResult.ok u) :
    t = Transaction.new ∧ u = Transaction.new ∧
    (Transaction.lifecycle f).sent = [TxFinish.terminal f] ∧
    (Transaction.lifecycle TxFinish.abandon).sent = [TxCommand.rollback] ∧
    ((Transaction.lifecycle f).sent = [TxCommand.commit] → f = TxFinish.commitCall) ∧
    (Transaction.lifecycle f).done = true := by
  refine ⟨?_, ?_, ?_, ?_, ?_, ?_⟩
  · cases hb : c.client.server.beginResp with
    | ok v =>
      simp [Client.transaction, Runtime.blockOn, AsyncClient.transaction, hb] at h1
      exact h1.symm
    | error e =>
      simp [Client.transaction, Runtime.blockOn, AsyncClient.transaction, hb] at h1
  · cases hb : c.client.server.beginResp with
    | ok v =>
      simp [TransactionBuilder.start, Client.build_transaction, Runtime.blockOn,
        AsyncClient.transaction, hb] at h2
      exact h2.symm
    | error e =>
      simp [TransactionBuilder.start, Client.build_transaction, Runtime.blockOn,
        AsyncClient.transaction, hb] at h2
  · cases f <;>
      simp [Transaction.lifecycle, Transaction.new, Transaction.commit,
        Transaction.rollback, Transaction.dropRun, TxFinish.terminal]
  · simp [Transaction.lifecycle, Transaction.new, Transaction.dropRun]
  · cases f <;>
      simp [Transaction.lifecycle, Transaction.new, Transaction.commit,
        Transaction.rollback, Transaction.dropRun]
  · cases f <;>
      simp [Transaction.lifecycle, Transaction.new, Transaction.commit,
        Transaction.rollback, Transaction.dropRun]

/-- C2 witness: a concrete client begins a transaction (directly and through
the builder) and an abandoned handle rolls back. -/
theorem c2_transaction_single_terminal_witness :
    Client.transaction sampleClient = PResult.ok Transaction.new ∧
    TransactionBuilder.start (Client.build_transaction sampleClient) =
      PResult.ok Transaction.new ∧
    (Transaction.new = Transaction.new ∧ Transaction.new = Transaction.new ∧
    (Transaction.lifecycle TxFinish.abandon).sent = [TxFinish.terminal TxFinish.abandon] ∧
    (Transaction.lifecycle TxFinish.abandon).sent = [TxCommand.rollback] ∧
    ((Transaction.lifecycle TxFinish.abandon).sent = [TxCommand.commit] →
      TxFinish.abandon = TxFinish.commitCall) ∧
    (Transaction.lifecycle TxFinish.abandon).done = true) :=
  ⟨rfl, rfl, c2_transaction_single_terminal sampleClient Transaction.new
    Transaction.new TxFinish.abandon rfl rfl⟩

/-- C3: a writer returned by Client::copy_in starts with an empty sink and
unfinished; writing chunks and then calling finish commits the COPY with a
row count equal to the rows in the input, while dropping the writer without
finish sends the abort frame as the last frame and leaves the target
table's row count unchanged. -/
theorem c3_copy_in_finish_or_abort (c : Client) (st : Statement) (w : CopyInWriter)
    (h : Client.copy_in c st = PResult.ok w) :
    w = CopyInWriter.new (Client.rt c) CopySink.new ∧
    ∀ (chunks : List Bytes) (table : Nat),
      copyRowCount (CopyInWriter.finish (CopyInWriter.writeAll w chunks)).sink.frames =
        Except.ok ((chunks.map rowsOfChunk).sum) ∧
      copyApply table (CopyInWriter.finish (CopyInWriter.writeAll w chunks)).sink.frames =
        table + (chunks.map rowsOfChunk).sum ∧
      (CopyInWriter.dropRun (CopyInWriter.writeAll w chunks)).sink.frames.getLast? =
        some CopyFrame.fail ∧
      copyApply table (CopyInWriter.dropRun (CopyInWriter.writeAll w chunks)).sink.frames =
        table := by
  have hw : w = CopyInWriter.new (Client.rt c) CopySink.new := by
    cases hb : c.client.server.copyInAccept st with
    | ok v =>
      simp [Client.copy_in, Runtime.blockOn, AsyncClient.copy_in, hb] at h
      exact h.symm
    | error e =>
      simp [Client.copy_in, Runtime.blockOn, AsyncClient.copy_in, hb] at h
  subst hw
  refine ⟨rfl, ?_⟩
  intro chunks table
  have hwa :
      CopyInWriter.writeAll (CopyInWriter.new (Client.rt c) CopySink.new) chunks =
        ⟨Client.rt c, ⟨chunks.map CopyFrame.data⟩, false⟩ := by
    simpa [CopyInWriter.new, CopySink.new] using writeAll_spec chunks (Client.rt c) [] false
  rw [hwa]
  have hfin :
      (CopyInWriter.finish ⟨Client.rt c, ⟨chunks.map CopyFrame.data⟩, false⟩).sink.frames =
        chunks.map CopyFrame.data ++ [CopyFrame.done] := by
    simp [CopyInWriter.finish]
  have hdrop :
      (CopyInWriter.dropRun ⟨Client.rt c, ⟨chunks.map CopyFrame.data⟩, false⟩).sink.frames =
        chunks.map CopyFrame.data ++ [CopyFrame.fail] := by
    simp [CopyInWriter.dropRun]
  rw [hfin, hdrop]
  have hcdone : copyCommitted (chunks.map CopyFrame.data ++ [CopyFrame.done]) = true := by
    simp [copyCommitted, getLast?_append_one]
  have hcfail : copyCommitted (chunks.map CopyFrame.data ++ [CopyFrame.fail]) = false := by
    simp [copyCommitted, getLast?_append_one]
  refine ⟨?_, ?_, ?_, ?_⟩
  · simp [copyRowCount, hcdone, framesRows_append_done, framesRows_map_data]
  · simp [copyApply, hcdone, framesRows_append_done, framesRows_map_data]
  · exact getLast?_append_one _ _
  · simp [copyApply, hcfail]

/-- C3 witness: a concrete copy of two newline-terminated rows commits them
on finish, and an abandoned writer aborts leaving the table at its prior
count. -/
theorem c3_copy_in_finish_or_abort_witness :
    Client.copy_in sampleClient sampleStmt =
      PResult.ok (CopyInWriter.new (Client.rt sampleClient) CopySink.new) ∧
    (CopyInWriter.new (Client.rt sampleClient) CopySink.new =
      CopyInWriter.new (Client.rt sampleClient) CopySink.new ∧
    ∀ (chunks : List Bytes) (table : Nat),
      copyRowCount (CopyInWriter.finish (CopyInWriter.writeAll
          (CopyInWriter.new (Client.rt sampleClient) CopySink.new) chunks)).sink.frames =
        Except.ok ((chunks.map rowsOfChunk).sum) ∧
      copyApply table (CopyInWriter.finish (CopyInWriter.writeAll
          (CopyInWriter.new (Client.rt sampleClient) CopySink.new) chunks)).sink.frames =
        table + (chunks.map rowsOfChunk).sum ∧
      (CopyInWriter.dropRun (CopyInWriter.writeAll
          (CopyInWriter.new (Client.rt sampleClient) CopySink.new) chunks)).sink.frames.getLast? =
        some CopyFrame.fail ∧
      copyApply table (CopyInWriter.dropRun (CopyInWriter.writeAll
          (CopyInWriter.new (Client.rt sampleClient) CopySink.new) chunks)).sink.frames =
        table) :=
  ⟨rfl, c3_copy_in_finish_or_abort sampleClient sampleStmt
    (CopyInWriter.new (Client.rt sampleClient) CopySink.new) rfl⟩

/-- C8: with TLS required, a trusted certificate and a verifying hostname,
connection establishment succeeds over TLS; with TLS preferred against a
TLS-capable server it succeeds over TLS as well; and the round-trip query
SELECT dollar-one cast to INT4 bound to 1 returns exactly one row whose
sole column equals 1. -/
theorem c8_tls_smoke_roundtrip :
    establish SslMode.require ⟨true, true⟩ ⟨true⟩ = ConnResult.tls ∧
    establish SslMode.prefer ⟨true, true⟩ ⟨true⟩ = ConnResult.tls ∧
    smokeRoundTrip tlsTestClient = PResult.ok [[1]] := by
  refine ⟨rfl, rfl, ?_⟩
  decide

end Pg
